import Mathlib

/-!
Verification of `pyplr` (cvd_pupillometry).

Part 1 embeds `adaptive_measurement` from `pyplr/oceanops.py`: the adaptive
integration-time search loop for an Ocean Optics spectrometer.  Machine floats
are modelled as exact rationals; the Python runtime errors that the function
can raise (subtracting `None`, referencing an unbound local after a skipped
loop, indexing a short temperature list, `max` of an empty readout) are
modelled with an explicit error type; the bounded `while` loop is run on fuel.

Part 2 embeds the pupil time-series cleaning utilities from
`pyplr/preproc.py`.  A pandas `DataFrame` is modelled as an index of rationals
together with named columns of optional rationals (`none` = NaN).  Python's
in-place mutation of an argument frame is made explicit: each transformation
returns both its result and the state of the caller's argument object after
the call (for the functions that begin with `samples.copy(deep=True)` that
second component is the untouched input; `even_samples`, which takes no copy,
hands back the mutated frame).  External numeric routines (`scipy.interp1d`,
`pandas.std`, `pandas.interpolate`, `scipy.filtfilt`, `scipy.savgol_filter`)
are parameters, as the spec treats them as external collaborators.
-/

namespace Ocean

/-- A value stored in the returned info dictionary: a number or a string. -/
inductive Val where
  | num (q : ℚ)
  | str (s : String)
deriving DecidableEq, Repr

/-- The spectrometer handle as used by `adaptive_measurement`: capability
bounds `integration_time_micros_limits`, full-scale `max_intensity`, and the
device readouts, modelled as deterministic functions of the exposure
(integration time) most recently applied. -/
structure Spectrometer where
  minTime : ℚ
  maxTime : ℚ
  max_intensity : ℚ
  intensities : ℚ → List ℚ
  temperatures : ℚ → List ℚ
  model : String

/-- The loop state of `adaptive_measurement`: the candidate integration time
`intgt`, the optional bracketing values `lower_intgt` / `upper_intgt`, the
last `max_reported` peak, the last temperature and intensity readouts (`none`
before the first iteration, mirroring Python's unbound locals), and the trace
of exposure values actually passed to `integration_time_micros`. -/
structure SearchState where
  intgt : ℚ
  lower_intgt : Option ℚ
  upper_intgt : Option ℚ
  max_reported : ℚ
  temps : Option (List ℚ)
  oo_counts : Option (List ℚ)
  applied : List ℚ
deriving DecidableEq, Repr

/-- Runtime errors the Python function can raise. -/
inductive MeasureError where
  | emptyReadout   -- `max(oo_counts)` on an empty sequence
  | unsetLower     -- `intgt -= (upper_intgt - lower_intgt) / 2` with `lower_intgt is None`
  | unboundLocal   -- `temps` / `oo_counts` referenced after a loop that never ran
  | missingTemp    -- `temps[0]` or `temps[2]` out of range
  | outOfFuel      -- artificial: the modelled loop ran out of fuel
deriving DecidableEq, Repr

/-- Outcome of one iteration of the `while` body. -/
inductive StepResult where
  | next (s : SearchState)   -- iteration finished, loop continues
  | brk (s : SearchState)    -- the `break` on `intgt == intgtlims[1]` fired
  | fail (e : MeasureError)
deriving DecidableEq, Repr

/-- Outcome of running the loop. -/
inductive RunResult where
  | ok (s : SearchState)
  | fail (e : MeasureError)
deriving DecidableEq, Repr

/-- Outcome of the whole function: the final readout and info dict. -/
inductive MeasResult where
  | ok (counts : List ℚ) (info : List (String × Val))
  | fail (e : MeasureError)
deriving DecidableEq, Repr

/-- The applied-exposure trace of a run, when it returned normally. -/
def RunResult.mapApplied : RunResult → Option (List ℚ)
  | .ok s => some s.applied
  | .fail _ => none

/-- `lower_bound = maximum_intensity * .8` -/
def lower_bound (d : Spectrometer) : ℚ := d.max_intensity * (8 / 10)

/-- `upper_bound = maximum_intensity * .9` -/
def upper_bound (d : Spectrometer) : ℚ := d.max_intensity * (9 / 10)

/-- The `while` condition:
`max_reported < lower_bound or max_reported > upper_bound`. -/
def loopCond (d : Spectrometer) (s : SearchState) : Bool :=
  decide (s.max_reported < lower_bound d) || decide (s.max_reported > upper_bound d)

/-- `if intgt >= intgtlims[1]: intgt = intgtlims[1]` -/
def clampTop (d : Spectrometer) (t : ℚ) : ℚ :=
  if t ≥ d.maxTime then d.maxTime else t

/-- The loop state right after the measurement part of an iteration: the
(clamped) integration time `t` has been applied and recorded in the trace,
and the temperature and intensity readouts with peak `m` are stored. -/
def measured (d : Spectrometer) (s : SearchState) (t m : ℚ) : SearchState :=
  { s with intgt := t, max_reported := m, temps := some (d.temperatures t),
           oo_counts := some (d.intensities t), applied := s.applied ++ [t] }

/-- The loop's bracketing invariant (decidable, for concrete evaluation):
the candidate integration time is positive; a known lower bracket is
positive, strictly below the candidate and strictly below the device
maximum; a known upper bracket is strictly above the candidate and strictly
below the device maximum. -/
def invB (d : Spectrometer) (s : SearchState) : Bool :=
  decide (0 < s.intgt) &&
  (match s.lower_intgt with
   | none => true
   | some l => decide (0 < l) && decide (l < s.intgt) && decide (l < d.maxTime)) &&
  (match s.upper_intgt with
   | none => true
   | some u => decide (s.intgt < u) && decide (u < d.maxTime))

/-- One iteration of the `while` body of `adaptive_measurement`: clamp the
integration time to the upper device limit, apply it, read temperatures and
intensities, take the peak, `break` if the limit was reached, otherwise run
the `elif` update chain in the source's priority order. -/
def loopBody (d : Spectrometer) (s : SearchState) : StepResult :=
  let t := clampTop d s.intgt
  match (d.intensities t).max? with
  | none => .fail .emptyReadout
  | some m =>
    let s1 : SearchState := measured d s t m
    if t = d.maxTime then
      .brk s1
    else if m < lower_bound d ∧ s1.upper_intgt = none then
      .next { s1 with lower_intgt := some t, intgt := t * 2 }
    else if m > upper_bound d then
      match s1.lower_intgt with
      | none => .fail .unsetLower
      | some l => .next { s1 with upper_intgt := some t, intgt := t - (t - l) / 2 }
    else if m < lower_bound d ∧ s1.upper_intgt ≠ none then
      match s1.upper_intgt with
      | none => .fail .unsetLower   -- unreachable: guarded by the condition
      | some u => .next { s1 with lower_intgt := some t, intgt := t + (u - t) / 2 }
    else
      .next s1

/-- The `while` loop, run on fuel (each fuel unit pays for one test of the
loop condition). -/
def adaptiveLoop (d : Spectrometer) : Nat → SearchState → RunResult
  | 0, _ => .fail .outOfFuel
  | n + 1, s =>
    if loopCond d s then
      match loopBody d s with
      | .next s' => adaptiveLoop d n s'
      | .brk s' => .ok s'
      | .fail e => .fail e
    else
      .ok s

/-- The state before the loop: `intgt = 1000.0`, `max_reported = 0`, both
bracketing values `None`, no readouts yet. -/
def initState : SearchState :=
  { intgt := 1000, lower_intgt := none, upper_intgt := none,
    max_reported := 0, temps := none, oo_counts := none, applied := [] }

/-- The base info dictionary built after the loop. -/
def mkInfo (bt mt intgt : ℚ) (model : String) : List (String × Val) :=
  [("board_temp", .num bt), ("micro_temp", .num mt),
   ("integration_time", .num intgt), ("model", .str model)]

/-- `{**oo_info_dict, **setting}`: under lookup the entries of `b` shadow
those of `a` (Python's dict merge gives `b` precedence on key collision). -/
def dictMerge (a b : List (String × Val)) : List (String × Val) := b ++ a

/-- `adaptive_measurement` from `pyplr/oceanops.py`: run the search loop from
the initial state, then build the info dictionary from the last temperature
readout, the final integration time and the device model, merged with the
caller-supplied `setting` tags, and return it with the final counts. -/
def adaptive_measurement (d : Spectrometer) (setting : List (String × Val))
    (fuel : Nat) : MeasResult :=
  match adaptiveLoop d fuel initState with
  | .fail e => .fail e
  | .ok s =>
    match s.temps, s.oo_counts with
    | some temps, some counts =>
      match temps.get? 0, temps.get? 2 with
      | some bt, some mt =>
        .ok counts (dictMerge (mkInfo bt mt s.intgt d.model) setting)
      | _, _ => .fail .missingTemp
    | _, _ => .fail .unboundLocal

/-! ### Concrete devices used in the theorems -/

/-- The spec's concrete device: exposure range [1, 65535], `max_intensity`
16384, peak(exposure) = min(16384, exposure * 4). -/
def dev1 : Spectrometer :=
  { minTime := 1, maxTime := 65535, max_intensity := 16384,
    intensities := fun t => [min 16384 (4 * t)],
    temperatures := fun _ => [20, 0, 30], model := "USB2000+" }

/-- A device whose very first readout (at the initial 1000 micros) already
peaks above the upper target bound: peak is constantly 16000. -/
def dev2 : Spectrometer :=
  { minTime := 1, maxTime := 65535, max_intensity := 16384,
    intensities := fun _ => [16000],
    temperatures := fun _ => [20, 0, 30], model := "USB2000+" }

/-- A degenerate device: `minTime = 200 ≥ maxTime = 100` and
`max_intensity = -1 ≤ 0`. -/
def dev3 : Spectrometer :=
  { minTime := 200, maxTime := 100, max_intensity := -1,
    intensities := fun _ => [5],
    temperatures := fun _ => [20, 0, 30], model := "FLAME" }

/-- A degenerate device with `max_intensity = 0` (and `minTime ≥ maxTime`). -/
def dev3b : Spectrometer :=
  { minTime := 200, maxTime := 100, max_intensity := 0,
    intensities := fun _ => [5],
    temperatures := fun _ => [20, 0, 30], model := "FLAME" }

/-- Like `dev1` but with a minimum integration-time limit of 2000 micros,
above the fixed 1000-micros starting exposure. -/
def dev4 : Spectrometer :=
  { minTime := 2000, maxTime := 65535, max_intensity := 16384,
    intensities := fun t => [min 16384 (4 * t)],
    temperatures := fun _ => [20, 0, 30], model := "USB2000+" }

/-- A dim device: the peak is constantly 10, far below the lower target
bound, whatever the exposure; maximum exposure 3000 micros. -/
def dev6 : Spectrometer :=
  { minTime := 1, maxTime := 3000, max_intensity := 16384,
    intensities := fun _ => [10],
    temperatures := fun _ => [20, 0, 30], model := "FLAME" }

/-- A device whose first readout peaks at 15000, above the upper target
bound 14745.6 of its `max_intensity` 16384. -/
def dev8 : Spectrometer :=
  { minTime := 1, maxTime := 65535, max_intensity := 16384,
    intensities := fun _ => [15000],
    temperatures := fun _ => [21, 0, 31], model := "USB2000+" }

/-! ### The concrete run of `dev1` (the spec's worked scenario) -/

/-- dev1 loop state after iteration 1 (peak 4000 below band: double). -/
def dev1_s1 : SearchState :=
  ⟨2000, some 1000, none, 4000, some [20, 0, 30], some [4000], [1000]⟩

/-- dev1 loop state after iteration 2 (peak 8000 below band: double). -/
def dev1_s2 : SearchState :=
  ⟨4000, some 2000, none, 8000, some [20, 0, 30], some [8000], [1000, 2000]⟩

/-- dev1 loop state after iteration 3 (peak 16000 above band: bisect down). -/
def dev1_s3 : SearchState :=
  ⟨3000, some 2000, some 4000, 16000, some [20, 0, 30], some [16000],
   [1000, 2000, 4000]⟩

/-- dev1 loop state after iteration 4 (peak 12000 below band, upper known:
bisect up). -/
def dev1_s4 : SearchState :=
  ⟨3500, some 3000, some 4000, 12000, some [20, 0, 30], some [12000],
   [1000, 2000, 4000, 3000]⟩

/-- dev1 loop state after iteration 5 (peak 14000 in band: no update). -/
def dev1_s5 : SearchState :=
  ⟨3500, some 3000, some 4000, 14000, some [20, 0, 30], some [14000],
   [1000, 2000, 4000, 3000, 3500]⟩

/-- A device whose very first readout (peak 85 of `max_intensity` 100) is
already in the target band, so the run converges in one iteration. -/
def dev7 : Spectrometer :=
  { minTime := 1, maxTime := 65535, max_intensity := 100,
    intensities := fun _ => [85],
    temperatures := fun _ => [21, 5, 33], model := "JAZ" }

/-- The state after `dev7`'s single iteration. -/
def dev7_s1 : SearchState :=
  ⟨1000, none, none, 85, some [21, 5, 33], some [85], [1000]⟩

end Ocean

namespace Preproc

/-- A pandas `DataFrame` as used by `pyplr/preproc.py`: an index of rationals
and named columns of cells, where a cell `none` models NaN. -/
structure DataFrame where
  index : List ℚ
  cols : List (String × List (Option ℚ))
deriving DecidableEq, Repr

/-- `df[f]` as a column read; `none` models the KeyError on a missing
column. -/
def getCol (df : DataFrame) (f : String) : Option (List (Option ℚ)) :=
  df.cols.lookup f

def setColAux : List (String × List (Option ℚ)) → String → List (Option ℚ) →
    List (String × List (Option ℚ))
  | [], f, v => [(f, v)]
  | (g, w) :: t, f, v =>
    if f == g then (g, v) :: t else (g, w) :: setColAux t f v

/-- `df[f] = v`: replace column `f`, or append it when absent. -/
def setCol (df : DataFrame) (f : String) (v : List (Option ℚ)) : DataFrame :=
  { df with cols := setColAux df.cols f v }

/-- The cell of column `f` at row position `i`; outer `none` = missing column
or row, inner `none` = NaN. -/
def colCell (df : DataFrame) (f : String) (i : Nat) : Option (Option ℚ) :=
  (getCol df f).bind fun vs => vs.get? i

/-- Set the cells selected by `cond` (by row position, starting at `k`) to
NaN. -/
def maskCellsAux (cond : Nat → Bool) : Nat → List (Option ℚ) → List (Option ℚ)
  | _, [] => []
  | i, v :: t => (if cond i then none else v) :: maskCellsAux cond (i + 1) t

/-- `df[rowmask] = nan`: null every cell of the selected rows, in all
columns. -/
def nullRows (df : DataFrame) (p : Nat → Bool) : DataFrame :=
  { df with cols := df.cols.map fun c => (c.1, maskCellsAux p 0 c.2) }

/-- Does row `i` hold the value 0 in one of the listed columns? -/
def rowHasZero (df : DataFrame) (cols : List String) (i : Nat) : Bool :=
  cols.any fun f => colCell df f i == some (some 0)

/-- One pass of `mask_zeros`' loop: `samps[samps[f] == 0] = nan`
(`none` models the KeyError on a missing column). -/
def maskZeroStep (df : DataFrame) (f : String) : Option DataFrame :=
  match getCol df f with
  | none => none
  | some vs => some (nullRows df fun i => vs.get? i == some (some 0))

def maskZeroFold : DataFrame → List String → Option DataFrame
  | df, [] => some df
  | df, f :: fs =>
    match maskZeroStep df f with
    | none => none
    | some df' => maskZeroFold df' fs

/-- `mask_zeros` from `pyplr/preproc.py`: deep-copy the input, then for each
listed column null the whole row wherever that column is 0.  The second
component is the caller's frame after the call — unchanged, because every
write hits the copy. -/
def mask_zeros (samples : DataFrame) (mask_cols : List String) :
    Option DataFrame × DataFrame :=
  (maskZeroFold samples mask_cols, samples)

/-- `Series.diff()` on the tail: each cell minus its predecessor, NaN when
either is NaN. -/
def diffAux : Option ℚ → List (Option ℚ) → List (Option ℚ)
  | _, [] => []
  | prev, x :: t =>
    (match prev, x with
     | some a, some b => some (b - a)
     | _, _ => none) :: diffAux x t

/-- `Series.diff()`: NaN first, then pairwise differences. -/
def diffList : List (Option ℚ) → List (Option ℚ)
  | [] => []
  | x :: t => none :: diffAux x t

/-- The non-NaN values of a series. -/
def someVals (l : List (Option ℚ)) : List ℚ := l.filterMap id

/-- `Series.mean()` with pandas' default NaN skipping; NaN when no value
remains. -/
def meanList (l : List (Option ℚ)) : Option ℚ :=
  if (someVals l).length = 0 then none
  else some ((someVals l).sum / (someVals l).length)

/-- The mask condition `(d < (m - s)) | (d > (m + s))` with pandas semantics:
any comparison with NaN is false. -/
def derivMaskCond (di m sd : Option ℚ) : Bool :=
  match di, m, sd with
  | some dv, some mv, some sv => decide (dv < mv - sv) || decide (dv > mv + sv)
  | _, _, _ => false

/-- `samps[col].mask((d < (m-s)) | (d > (m+s)))` for one column:
`d`, `m` and `s` come from the original `samples[col]` (here `orig`), the
masking is applied to the current copy's column `cur`; `std` is the external
`pandas.std` routine and `threshold` the caller's multiplier. -/
def maskedColumn (std : List (Option ℚ) → Option ℚ)
    (orig cur : List (Option ℚ)) (threshold : ℚ) : List (Option ℚ) :=
  let d := diffList orig
  let m := meanList (diffList orig)
  let sd := (std (diffList orig)).map (· * threshold)
  maskCellsAux
    (fun i =>
      match d.get? i with
      | some di => derivMaskCond di m sd
      | none => false) 0 cur

/-- One pass of `mask_pupil_first_derivative`'s loop over `mask_cols`:
statistical masking of the column, then `samps[samps[col] == 0] = nan`. -/
def derivStep (std : List (Option ℚ) → Option ℚ) (samples : DataFrame)
    (threshold : ℚ) (samps : DataFrame) (col : String) : Option DataFrame :=
  match getCol samples col, getCol samps col with
  | some orig, some cur =>
    let masked := maskedColumn std orig cur threshold
    some (nullRows (setCol samps col masked)
      fun i => masked.get? i == some (some 0))
  | _, _ => none

def derivFold (std : List (Option ℚ) → Option ℚ) (samples : DataFrame)
    (threshold : ℚ) : DataFrame → List String → Option DataFrame
  | samps, [] => some samps
  | samps, c :: cs =>
    match derivStep std samples threshold samps c with
    | none => none
    | some samps' => derivFold std samples threshold samps' cs

/-- `mask_pupil_first_derivative` from `pyplr/preproc.py`: deep-copy, then
for each listed column mask by the first-derivative criterion (derivative,
mean and std always computed from the original `samples`) and null whole
rows where the masked column equals 0.  The caller's frame is returned
unchanged: every write hits the copy. -/
def mask_pupil_first_derivative (std : List (Option ℚ) → Option ℚ)
    (samples : DataFrame) (threshold : ℚ) (mask_cols : List String) :
    Option DataFrame × DataFrame :=
  (derivFold std samples threshold samples mask_cols, samples)

/-- Mask the cells of the listed columns at the selected row positions
(`samps[cols] = samps[cols].mask(cond)` / `samps.loc[rows, cols] = nan`);
`none` models the KeyError on a missing column. -/
def maskColsFold (cond : Nat → Bool) : DataFrame → List String → Option DataFrame
  | df, [] => some df
  | df, f :: fs =>
    match getCol df f with
    | none => none
    | some vs => maskColsFold cond (setCol df f (maskCellsAux cond 0 vs)) fs

/-- `mask_pupil_confidence` from `pyplr/preproc.py`: deep-copy, then set the
listed columns to NaN where the `confidence` column is below `threshold`
(a NaN confidence compares false, so is never masked). -/
def mask_pupil_confidence (samples : DataFrame) (threshold : ℚ)
    (mask_cols : List String) : Option DataFrame × DataFrame :=
  (match getCol samples "confidence" with
   | none => none
   | some conf =>
     maskColsFold
       (fun i =>
         match conf.get? i with
         | some (some cv) => decide (cv < threshold)
         | _ => false) samples mask_cols, samples)

/-- `ev_row_idxs`: the row positions of `samples` whose index timestamp lies
inside some blink's `[start_timestamp, end_timestamp]` interval. -/
def ev_row_idxs (samples : DataFrame) (blinks : List (ℚ × ℚ)) : Nat → Bool :=
  fun i =>
    blinks.any fun se =>
      match samples.index.get? i with
      | some ts => decide (se.1 ≤ ts) && decide (ts ≤ se.2)
      | none => false

/-- `mask_blinks` from `pyplr/preproc.py`: deep-copy, set the listed columns
to NaN on the blink rows, and add an `interpolated` 0/1 flag column marking
those rows. -/
def mask_blinks (samples : DataFrame) (blinks : List (ℚ × ℚ))
    (mask_cols : List String) : Option DataFrame × DataFrame :=
  (match maskColsFold (ev_row_idxs samples blinks) samples mask_cols with
   | none => none
   | some samps =>
     some (setCol samps "interpolated"
       ((List.range samps.index.length).map fun i =>
         some (if ev_row_idxs samples blinks i then 1 else 0))), samples)

/-- Which rows have NaN in one of the listed columns
(`samples[cols].isna().any(axis=1)`); `none` on a missing column. -/
def anyNaRows (df : DataFrame) (cols : List String) : Option (Nat → Bool) :=
  match cols.mapM (getCol df) with
  | none => none
  | some vss => some fun i => vss.any fun vs => vs.get? i == some none

/-- Apply an external per-column numeric routine to each listed column
(`samps[fields] = samps[fields].apply(...)`); `none` on a missing column. -/
def applyCols (g : List (Option ℚ) → List (Option ℚ)) :
    DataFrame → List String → Option DataFrame
  | df, [] => some df
  | df, f :: fs =>
    match getCol df f with
    | none => none
    | some vs => applyCols g (setCol df f (g vs)) fs

/-- `interpolate_pupil` from `pyplr/preproc.py`: deep-copy, add an
`interpolated` 0/1 flag column marking the rows with a NaN in the listed
columns, then linearly interpolate those columns with the external pandas
routine `pdInterp`. -/
def interpolate_pupil (pdInterp : List (Option ℚ) → List (Option ℚ))
    (samples : DataFrame) (interp_cols : List String) :
    Option DataFrame × DataFrame :=
  (match anyNaRows samples interp_cols with
   | none => none
   | some naRow =>
     applyCols pdInterp
       (setCol samples "interpolated"
         ((List.range samples.index.length).map fun i =>
           some (if naRow i then 1 else 0))) interp_cols, samples)

/-- `butterworth_series` from `pyplr/preproc.py`: the Butterworth design and
`filtfilt` calls are one external routine parameter (taking `filt_order` and
`cutoff_freq`); with `inplace=True` the single pandas assignment mutates the
caller's frame, otherwise a deep copy is taken first. -/
def butterworth_series (filtfilt : Nat → ℚ → List (Option ℚ) → List (Option ℚ))
    (samples : DataFrame) (fields : List String) (filt_order : Nat)
    (cutoff_freq : ℚ) (inplace : Bool) : Option DataFrame × DataFrame :=
  let r := applyCols (filtfilt filt_order cutoff_freq) samples fields
  (r, if inplace then r.getD samples else samples)

/-- `savgol_series` from `pyplr/preproc.py`: like `butterworth_series` with
scipy's `savgol_filter` (taking `window_length` and `filt_order`) as the
external routine. -/
def savgol_series (savgol_filter : Nat → Nat → List (Option ℚ) → List (Option ℚ))
    (samples : DataFrame) (fields : List String)
    (window_length filt_order : Nat) (inplace : Bool) :
    Option DataFrame × DataFrame :=
  let r := applyCols (savgol_filter window_length filt_order) samples fields
  (r, if inplace then r.getD samples else samples)

/-- `xnew.mapM (interp ...)`: evaluate the interpolant at every new
timepoint, failing if any evaluation fails. -/
def mapO (g : ℚ → Option (Option ℚ)) : List ℚ → Option (List (Option ℚ))
  | [] => some []
  | t :: ts =>
    match g t, mapO g ts with
    | some v, some vs => some (v :: vs)
    | _, _ => none

/-- The per-field loop of `even_samples`.  No copy is taken in the source, so
every column write and the final index assignment mutate the caller's frame:
the second component is the frame as the caller observes it after the call,
including partial mutation when a later field raises. -/
def evenFold (interp : List ℚ → List (Option ℚ) → ℚ → Option (Option ℚ))
    (x : List ℚ) (xnew : List ℚ) :
    List String → DataFrame → Option DataFrame × DataFrame
  | [], df =>
    let final : DataFrame := { df with index := xnew }
    (some final, final)
  | f :: fs, df =>
    match getCol df f with
    | none => (none, df)
    | some y =>
      match mapO (interp x y) xnew with
      | none => (none, df)
      | some ynew => evenFold interp x xnew fs (setCol df f ynew)

/-- `even_samples` from `pyplr/preproc.py`: rebase the index at its first
entry, build the evenly spaced timepoints `np.arange(0, len(samps)) *
(1/sample_rate)`, resample each listed field with the external `interp1d`
routine, and assign the new index — all directly on the caller's frame
(the source takes no copy). -/
def even_samples (interp : List ℚ → List (Option ℚ) → ℚ → Option (Option ℚ))
    (samps : DataFrame) (sample_rate : ℚ) (fields : List String) :
    Option DataFrame × DataFrame :=
  match samps.index.head? with
  | none => (none, samps)
  | some x0 =>
    evenFold interp (samps.index.map (· - x0))
      ((List.range samps.index.length).map fun i => (i : ℚ) * (1 / sample_rate))
      fields samps

/-- A concrete two-node linear interpolant, standing in for scipy's
`interp1d` in the counterexample (`none` outside the nodes' range or on NaN
nodes, as scipy raises there). -/
def linearInterp : List ℚ → List (Option ℚ) → ℚ → Option (Option ℚ) :=
  fun xs ys t =>
    match xs, ys with
    | [x0, x1], [some y0, some y1] =>
      if x0 ≤ t ∧ t ≤ x1 ∧ x0 < x1 then
        some (some (y0 + (y1 - y0) * (t - x0) / (x1 - x0)))
      else none
    | _, _ => none

/-- A two-row frame with a `diameter` column, whose index does not start at
0. -/
def df9 : DataFrame := ⟨[5, 7], [("diameter", [some 1, some 3])]⟩

/-- A three-row frame with a 0 in its `diameter` column and a second
column. -/
def df10 : DataFrame :=
  ⟨[0, 1, 2], [("diameter", [some 5, some 0, some 7]),
               ("confidence", [some 1, some 1, some 1])]⟩

/-- A three-row frame whose `diameter` column starts with a 0 that the
derivative criterion leaves unmasked. -/
def df11 : DataFrame := ⟨[0, 1, 2], [("diameter", [some 0, some 0, some 7])]⟩

end Preproc

open Ocean
open Preproc

/-! ### Small-step unfolding lemmas for the loop -/

theorem adaptiveLoop_step_next (d : Spectrometer) (s s' : SearchState) (n : Nat)
    (h1 : loopCond d s = true) (h2 : loopBody d s = .next s') :
    adaptiveLoop d (n + 1) s = adaptiveLoop d n s' := by
  simp [adaptiveLoop, h1, h2]

theorem adaptiveLoop_step_brk (d : Spectrometer) (s s' : SearchState) (n : Nat)
    (h1 : loopCond d s = true) (h2 : loopBody d s = .brk s') :
    adaptiveLoop d (n + 1) s = .ok s' := by
  simp [adaptiveLoop, h1, h2]

theorem adaptiveLoop_step_fail (d : Spectrometer) (s : SearchState)
    (e : MeasureError) (n : Nat)
    (h1 : loopCond d s = true) (h2 : loopBody d s = .fail e) :
    adaptiveLoop d (n + 1) s = .fail e := by
  simp [adaptiveLoop, h1, h2]

theorem adaptiveLoop_stop (d : Spectrometer) (s : SearchState) (n : Nat)
    (h1 : loopCond d s = false) :
    adaptiveLoop d (n + 1) s = .ok s := by
  simp [adaptiveLoop, h1]

theorem dev1_body0 : loopBody dev1 initState = .next dev1_s1 := by
  norm_num [loopBody, measured, clampTop, dev1, initState, dev1_s1, lower_bound,
    upper_bound, List.max?, min_def]

theorem dev1_body1 : loopBody dev1 dev1_s1 = .next dev1_s2 := by
  norm_num [loopBody, measured, clampTop, dev1, dev1_s1, dev1_s2, lower_bound,
    upper_bound, List.max?, min_def]

theorem dev1_body2 : loopBody dev1 dev1_s2 = .next dev1_s3 := by
  norm_num [loopBody, measured, clampTop, dev1, dev1_s2, dev1_s3, lower_bound,
    upper_bound, List.max?, min_def]

theorem dev1_body3 : loopBody dev1 dev1_s3 = .next dev1_s4 := by
  norm_num [loopBody, measured, clampTop, dev1, dev1_s3, dev1_s4, lower_bound,
    upper_bound, List.max?, min_def, Option.some_ne_none]

theorem dev1_body4 : loopBody dev1 dev1_s4 = .next dev1_s5 := by
  norm_num [loopBody, measured, clampTop, dev1, dev1_s4, dev1_s5, lower_bound,
    upper_bound, List.max?, min_def, Option.some_ne_none]

/-- The full run of the spec's worked scenario: five iterations, then the
`while` condition fails and the loop exits with integration time 3500. -/
theorem dev1_run : adaptiveLoop dev1 10 initState = .ok dev1_s5 := by
  rw [show (10 : Nat) = 9 + 1 from rfl,
    adaptiveLoop_step_next dev1 initState dev1_s1 9
      (by norm_num [loopCond, initState, lower_bound, upper_bound, dev1]) dev1_body0,
    show (9 : Nat) = 8 + 1 from rfl,
    adaptiveLoop_step_next dev1 dev1_s1 dev1_s2 8
      (by norm_num [loopCond, dev1_s1, lower_bound, upper_bound, dev1]) dev1_body1,
    show (8 : Nat) = 7 + 1 from rfl,
    adaptiveLoop_step_next dev1 dev1_s2 dev1_s3 7
      (by norm_num [loopCond, dev1_s2, lower_bound, upper_bound, dev1]) dev1_body2,
    show (7 : Nat) = 6 + 1 from rfl,
    adaptiveLoop_step_next dev1 dev1_s3 dev1_s4 6
      (by norm_num [loopCond, dev1_s3, lower_bound, upper_bound, dev1]) dev1_body3,
    show (6 : Nat) = 5 + 1 from rfl,
    adaptiveLoop_step_next dev1 dev1_s4 dev1_s5 5
      (by norm_num [loopCond, dev1_s4, lower_bound, upper_bound, dev1]) dev1_body4,
    show (5 : Nat) = 4 + 1 from rfl,
    adaptiveLoop_stop dev1 dev1_s5 4
      (by norm_num [loopCond, dev1_s5, lower_bound, upper_bound, dev1])]

/-- The run of `dev2` fails at once: first readout 16000 is above the upper
bound and `lower_intgt` is still unset. -/
theorem dev2_run : adaptiveLoop dev2 10 initState = .fail .unsetLower := by
  rw [show (10 : Nat) = 9 + 1 from rfl,
    adaptiveLoop_step_fail dev2 initState .unsetLower 9
      (by norm_num [loopCond, initState, lower_bound, upper_bound, dev2])
      (by norm_num [loopBody, measured, clampTop, dev2, initState, lower_bound,
        upper_bound, List.max?])]

/-- The run of `dev3` (negative `max_intensity`): the while condition holds
(`0 > upper_bound`), the exposure is clamped to the maximum 100 and applied,
and the loop breaks at the maximum. -/
theorem dev3_run : adaptiveLoop dev3 10 initState =
    .ok ⟨100, none, none, 5, some [20, 0, 30], some [5], [100]⟩ := by
  rw [show (10 : Nat) = 9 + 1 from rfl,
    adaptiveLoop_step_brk dev3 initState
      ⟨100, none, none, 5, some [20, 0, 30], some [5], [100]⟩ 9
      (by norm_num [loopCond, initState, lower_bound, upper_bound, dev3])
      (by norm_num [loopBody, measured, clampTop, dev3, initState, lower_bound,
        upper_bound, List.max?])]

/-- The run of `dev3b` (`max_intensity = 0`): the while condition is false at
entry, so the loop body never runs and no device call is made. -/
theorem dev3b_run : adaptiveLoop dev3b 10 initState = .ok initState := by
  rw [show (10 : Nat) = 9 + 1 from rfl,
    adaptiveLoop_stop dev3b initState 9
      (by norm_num [loopCond, initState, lower_bound, upper_bound, dev3b])]

/-- The run of `dev8` fails at once, like `dev2`, at peak 15000. -/
theorem dev8_run : adaptiveLoop dev8 10 initState = .fail .unsetLower := by
  rw [show (10 : Nat) = 9 + 1 from rfl,
    adaptiveLoop_step_fail dev8 initState .unsetLower 9
      (by norm_num [loopCond, initState, lower_bound, upper_bound, dev8])
      (by norm_num [loopBody, measured, clampTop, dev8, initState, lower_bound,
        upper_bound, List.max?])]


/-- C1, counterexample.  The claim quantifies over all deterministic peak
functions and promises that when the peak never enters the target band below
the device maximum the controller terminates at the maximum exposure.  For
`dev2` (band [13107.2, 14745.6] of `max_intensity` 16384, peak constantly
16000, so never in band) the run instead fails: the very first readout is
above the upper bound, the bisect-down branch fires with `lower_intgt` still
`None`, and the subtraction `intgt -= (upper_intgt - lower_intgt) / 2` raises
instead of returning the device's maximum exposure 65535. -/
theorem claim1_counterexample :
    adaptive_measurement dev2 [] 10 = .fail .unsetLower ∧
    dev2.intensities 1000 = [16000] ∧ upper_bound dev2 < 16000 ∧
    dev2.maxTime = 65535 := by
  refine ⟨?_, rfl, by norm_num [upper_bound, dev2], rfl⟩
  rw [adaptive_measurement, dev2_run]

/-- C1, amended.  The concrete scenario of the claim does hold: on the device
with exposure range [1, 65535], `max_intensity` 16384, band [0.8, 0.9] and
peak(exposure) = min(16384, 4 * exposure), the controller converges to the
exposure 3500 (within the expected 3277-3686) with fuel 10 — i.e. within at
most 10 iterations — after applying the exposures 1000, 2000, 4000, 3000,
3500, and the final peak 14000 lies in [13107.2, 14745.6].  The general
quantification over all devices fails (see the counterexample): when the peak
is above the band from the start the update errors on the unset lower
bracket rather than terminating. -/
theorem claim1_amended :
    adaptiveLoop dev1 10 initState = .ok
      { intgt := 3500, lower_intgt := some 3000, upper_intgt := some 4000,
        max_reported := 14000, temps := some [20, 0, 30],
        oo_counts := some [14000],
        applied := [1000, 2000, 4000, 3000, 3500] } ∧
    (3277 : ℚ) ≤ 3500 ∧ (3500 : ℚ) ≤ 3686 ∧
    dev1.intensities 3500 = [14000] ∧
    lower_bound dev1 ≤ 14000 ∧ (14000 : ℚ) ≤ upper_bound dev1 := by
  refine ⟨dev1_run, by norm_num, by norm_num, by norm_num [dev1, min_def],
    by norm_num [lower_bound, dev1], by norm_num [upper_bound, dev1]⟩

/-- C3, counterexample.  The claim says a degenerate device capability
descriptor (min ≥ max exposure, or `max_intensity ≤ 0`) makes the controller
raise `InvalidConfiguration` before any device interaction.  The code has no
validation at all: on `dev3` (min 200 ≥ max 100, `max_intensity = -1 ≤ 0`)
the search loop is entered and the device's exposure IS set (the applied
trace is `[100]`, one set-exposure call), after which the run returns
normally — no error of any kind is raised. -/
theorem claim3_counterexample :
    adaptiveLoop dev3 10 initState = .ok
      { intgt := 100, lower_intgt := none, upper_intgt := none,
        max_reported := 5, temps := some [20, 0, 30],
        oo_counts := some [5], applied := [100] } ∧
    dev3.maxTime ≤ dev3.minTime ∧ dev3.max_intensity ≤ 0 := by
  refine ⟨dev3_run, by norm_num [dev3], by norm_num [dev3]⟩

/-- C3, amended.  No configuration validation exists.  With
`max_intensity < 0` (`dev3`) the loop is entered and the device is touched
(one exposure application, trace `[100]`).  With `max_intensity = 0`
(`dev3b`) the `while` condition is false at entry, the loop body never runs
(zero device calls, empty applied trace), and the function then fails with an
unbound-local error when it builds the info dictionary — still not an
`InvalidConfiguration`. -/
theorem claim3_amended :
    adaptive_measurement dev3b [] 10 = .fail .unboundLocal ∧
    adaptiveLoop dev3b 10 initState = .ok initState ∧
    initState.applied = [] ∧
    (adaptiveLoop dev3 10 initState).mapApplied = some [100] := by
  refine ⟨?_, dev3b_run, rfl, by rw [dev3_run]; rfl⟩
  rw [adaptive_measurement, dev3b_run]; rfl

/-- C2.  On a non-terminating iteration (the break on reaching the maximum
does not fire), the update rule follows the source's `elif` priority order:
below-band with unknown upper bracket records `lower_intgt` and doubles;
otherwise above-band records `upper_intgt` and bisects downward by half the
bracket width (given `lower_intgt` is set); otherwise below-band with known
upper bracket records `lower_intgt` and bisects upward by half the bracket
width.  In each case the resulting state is exactly the one listed — no other
state change occurs. -/
theorem claim2_update_priority (d : Spectrometer) (s : SearchState) (t m : ℚ)
    (ht : t = clampTop d s.intgt)
    (hm : (d.intensities t).max? = some m)
    (hbrk : t ≠ d.maxTime) :
    (m < lower_bound d ∧ s.upper_intgt = none →
      loopBody d s = .next
        { intgt := t * 2, lower_intgt := some t, upper_intgt := none,
          max_reported := m, temps := some (d.temperatures t),
          oo_counts := some (d.intensities t), applied := s.applied ++ [t] }) ∧
    (¬(m < lower_bound d ∧ s.upper_intgt = none) → m > upper_bound d →
      ∀ l, s.lower_intgt = some l →
      loopBody d s = .next
        { intgt := t - (t - l) / 2, lower_intgt := some l,
          upper_intgt := some t, max_reported := m,
          temps := some (d.temperatures t),
          oo_counts := some (d.intensities t), applied := s.applied ++ [t] }) ∧
    (m < lower_bound d → ¬ m > upper_bound d → ∀ u, s.upper_intgt = some u →
      loopBody d s = .next
        { intgt := t + (u - t) / 2, lower_intgt := some t,
          upper_intgt := some u, max_reported := m,
          temps := some (d.temperatures t),
          oo_counts := some (d.intensities t), applied := s.applied ++ [t] }) := by
  subst ht
  refine ⟨?_, ?_, ?_⟩
  · rintro ⟨h1, h2⟩
    simp only [loopBody, hm]
    simp [measured, hbrk, h1, h2]
  · intro hn h2 l hl
    simp only [loopBody, hm]
    simp [measured, hbrk, hn, h2, hl]
  · intro h1 h2 u hu
    simp only [loopBody, hm]
    have : ¬ (m < lower_bound d ∧ s.upper_intgt = none) := by
      rintro ⟨_, h⟩; rw [h] at hu; exact Option.noConfusion hu
    simp [measured, hbrk, this, h1, h2, hu]

theorem dev1_clamp0 : clampTop dev1 initState.intgt = 1000 := by
  norm_num [clampTop, dev1, initState]

theorem dev1_max0 : (dev1.intensities 1000).max? = some 4000 := by
  norm_num [dev1, List.max?, min_def]

theorem dev1_ne_max0 : (1000 : ℚ) ≠ dev1.maxTime := by
  norm_num [dev1]

theorem dev1_below0 : (4000 : ℚ) < lower_bound dev1 := by
  norm_num [lower_bound, dev1]

/-- C2 witness: on the first iteration of the spec's worked scenario the
doubling branch fires, producing exactly the state `dev1_s1`. -/
theorem claim2_witness : loopBody dev1 initState = .next dev1_s1 := by
  have h := (claim2_update_priority dev1 initState 1000 4000 dev1_clamp0.symm
    dev1_max0 dev1_ne_max0).1 ⟨dev1_below0, rfl⟩
  rw [h]
  norm_num [dev1, initState, dev1_s1]

/-- Every exposure recorded in a run's applied trace is either inherited from
the starting state's trace or was clamped, so is at most the device maximum. -/
theorem applied_le_max (d : Spectrometer) :
    ∀ (fuel : Nat) (s₀ s : SearchState), adaptiveLoop d fuel s₀ = .ok s →
      ∀ t ∈ s.applied, t ∈ s₀.applied ∨ t ≤ d.maxTime := by
  have hclamp : ∀ x : ℚ, clampTop d x ≤ d.maxTime ∨ clampTop d x = x := by
    intro x; unfold clampTop; split
    · exact .inl le_rfl
    · exact .inr rfl
  have hclamp' : ∀ x : ℚ, clampTop d x ≤ d.maxTime ∨ ¬ x ≥ d.maxTime := by
    intro x; unfold clampTop; split
    · exact .inl le_rfl
    · next h => exact .inr h
  have happ : ∀ s s' : SearchState,
      (loopBody d s = .next s' ∨ loopBody d s = .brk s') →
      s'.applied = s.applied ++ [clampTop d s.intgt] := by
    intro s s' h
    rcases h with h | h <;>
    · simp only [loopBody] at h
      repeat' split at h
      all_goals first
        | (cases h; rfl)
        | cases h
  intro fuel
  induction fuel with
  | zero => intro s₀ s h; cases h
  | succ n ih =>
    intro s₀ s h t ht
    rw [adaptiveLoop] at h
    by_cases hc : loopCond d s₀
    · rw [if_pos hc] at h
      rcases hb : loopBody d s₀ with s' | s' | e <;> rw [hb] at h
      · rcases ih s' s h t ht with h' | h'
        · rw [happ s₀ s' (.inl hb)] at h'
          rcases List.mem_append.1 h' with h'' | h''
          · exact .inl h''
          · simp only [List.mem_singleton] at h''
            subst h''
            rcases hclamp s₀.intgt with h3 | h3
            · exact .inr h3
            · rw [h3]
              rcases hclamp' s₀.intgt with h4 | h4
              · rw [h3] at h4; exact .inr h4
              · exact .inr (le_of_not_ge h4)
        · exact .inr h'
      · cases h
        rw [happ s₀ s (.inr hb)] at ht
        rcases List.mem_append.1 ht with h'' | h''
        · exact .inl h''
        · simp only [List.mem_singleton] at h''
          subst h''
          rcases hclamp s₀.intgt with h3 | h3
          · exact .inr h3
          · rw [h3]
            rcases hclamp' s₀.intgt with h4 | h4
            · rw [h3] at h4; exact .inr h4
            · exact .inr (le_of_not_ge h4)
      · cases h
    · rw [if_neg hc] at h
      cases h
      exact .inl ht

/-- C4, amended.  In any run from the initial state, every exposure actually
passed to the device's set-exposure operation is at most the device maximum
`max_time`: the top-of-loop clamp enforces the upper bound.  (The claimed
lower bound `min_time` is NOT enforced — see the counterexample.) -/
theorem claim4_amended (d : Spectrometer) (fuel : Nat) (s : SearchState)
    (h : adaptiveLoop d fuel initState = .ok s) :
    ∀ t ∈ s.applied, t ≤ d.maxTime := by
  intro t ht
  rcases applied_le_max d fuel initState s h t ht with h' | h'
  · cases h'
  · exact h'

/-- C4 witness: in the worked run of `dev1` the converged exposure 3500 was
applied and is within the device maximum. -/
theorem claim4_witness : (3500 : ℚ) ≤ dev1.maxTime :=
  claim4_amended dev1 10 dev1_s5 dev1_run 3500 (by simp [dev1_s5])

/-- `dev4` differs from `dev1` only in `minTime`, which the loop never
reads, so the loop behaves identically. -/
theorem dev4_loop_eq : ∀ (n : Nat) (s : SearchState),
    adaptiveLoop dev4 n s = adaptiveLoop dev1 n s := by
  intro n
  induction n with
  | zero => intro s; rfl
  | succ k ih =>
    intro s
    have hc : loopCond dev4 s = loopCond dev1 s := rfl
    have hb : loopBody dev4 s = loopBody dev1 s := rfl
    rw [adaptiveLoop, adaptiveLoop, hc, hb]
    rcases h : loopBody dev1 s with s' | s' | e <;> simp only [ih]

/-- C4, counterexample.  The claim says the exposure applied to the device is
always within `[min_time, max_time]`.  On `dev4`, whose minimum
integration-time limit is 2000 micros, the very first applied exposure is the
hard-coded initial 1000 micros < `min_time` — the code never clamps from
below (indeed it never reads `intgtlims[0]`). -/
theorem claim4_counterexample :
    (adaptiveLoop dev4 10 initState).mapApplied =
      some [1000, 2000, 4000, 3000, 3500] ∧
    (1000 : ℚ) < dev4.minTime := by
  constructor
  · rw [dev4_loop_eq, dev1_run]; rfl
  · norm_num [dev4]

/-! Helper lemmas: the clamp, and a characterization of each loop-body
branch. -/

theorem clampTop_le (d : Spectrometer) (x : ℚ) : clampTop d x ≤ d.maxTime := by
  unfold clampTop; split
  · exact le_rfl
  · next h => exact le_of_not_ge h

theorem clampTop_of_ne_max (d : Spectrometer) (x : ℚ)
    (h : clampTop d x ≠ d.maxTime) : clampTop d x = x := by
  by_cases hx : x ≥ d.maxTime
  · exact absurd (by unfold clampTop; rw [if_pos hx]) h
  · unfold clampTop; rw [if_neg hx]

theorem clampTop_eq_max_le (d : Spectrometer) (x : ℚ)
    (h : clampTop d x = d.maxTime) : d.maxTime ≤ x := by
  by_cases hx : x ≥ d.maxTime
  · exact hx
  · unfold clampTop at h; rw [if_neg hx] at h; exact le_of_eq h.symm

theorem loopBody_empty (d : Spectrometer) (s : SearchState) (t : ℚ)
    (ht : t = clampTop d s.intgt) (hm : (d.intensities t).max? = none) :
    loopBody d s = .fail .emptyReadout := by
  subst ht; simp only [loopBody, hm]

theorem loopBody_brk_eq (d : Spectrometer) (s : SearchState) (t m : ℚ)
    (ht : t = clampTop d s.intgt) (hm : (d.intensities t).max? = some m)
    (hbt : t = d.maxTime) :
    loopBody d s = .brk (measured d s t m) := by
  subst ht; simp only [loopBody, hm]; rw [if_pos hbt]

theorem loopBody_b1_eq (d : Spectrometer) (s : SearchState) (t m : ℚ)
    (ht : t = clampTop d s.intgt) (hm : (d.intensities t).max? = some m)
    (hbt : t ≠ d.maxTime)
    (hc : m < lower_bound d ∧ s.upper_intgt = none) :
    loopBody d s = .next
      { measured d s t m with lower_intgt := some t, intgt := t * 2 } := by
  subst ht; simp only [loopBody, hm]
  simp [measured, hbt, hc.1, hc.2]

theorem loopBody_b2_none (d : Spectrometer) (s : SearchState) (t m : ℚ)
    (ht : t = clampTop d s.intgt) (hm : (d.intensities t).max? = some m)
    (hbt : t ≠ d.maxTime)
    (hn1 : ¬(m < lower_bound d ∧ s.upper_intgt = none))
    (hc2 : m > upper_bound d) (hl : s.lower_intgt = none) :
    loopBody d s = .fail .unsetLower := by
  subst ht; simp only [loopBody, hm]
  simp [measured, hbt, hn1, hc2, hl]

theorem loopBody_b2_eq (d : Spectrometer) (s : SearchState) (t m l : ℚ)
    (ht : t = clampTop d s.intgt) (hm : (d.intensities t).max? = some m)
    (hbt : t ≠ d.maxTime)
    (hn1 : ¬(m < lower_bound d ∧ s.upper_intgt = none))
    (hc2 : m > upper_bound d) (hl : s.lower_intgt = some l) :
    loopBody d s = .next
      { measured d s t m with
        upper_intgt := some t, intgt := t - (t - l) / 2 } := by
  subst ht; simp only [loopBody, hm]
  simp [measured, hbt, hn1, hc2, hl]

theorem loopBody_b3_eq (d : Spectrometer) (s : SearchState) (t m u : ℚ)
    (ht : t = clampTop d s.intgt) (hm : (d.intensities t).max? = some m)
    (hbt : t ≠ d.maxTime) (hc1 : m < lower_bound d)
    (hn2 : ¬ m > upper_bound d) (hu : s.upper_intgt = some u) :
    loopBody d s = .next
      { measured d s t m with
        lower_intgt := some t, intgt := t + (u - t) / 2 } := by
  subst ht; simp only [loopBody, hm]
  have hn1 : ¬(m < lower_bound d ∧ s.upper_intgt = none) := by
    rintro ⟨_, h⟩; rw [h] at hu; exact Option.noConfusion hu
  simp [measured, hbt, hn1, hn2, hc1, hu]

theorem loopBody_inband (d : Spectrometer) (s : SearchState) (t m : ℚ)
    (ht : t = clampTop d s.intgt) (hm : (d.intensities t).max? = some m)
    (hbt : t ≠ d.maxTime)
    (hn1 : ¬ m < lower_bound d) (hn2 : ¬ m > upper_bound d) :
    loopBody d s = .next (measured d s t m) := by
  subst ht; simp only [loopBody, hm]
  simp [measured, hbt, hn1, hn2]

/-- The propositional reading of the decidable invariant `invB`. -/
theorem invB_iff (d : Spectrometer) (s : SearchState) :
    invB d s = true ↔
      0 < s.intgt ∧
      (∀ l, s.lower_intgt = some l → 0 < l ∧ l < s.intgt ∧ l < d.maxTime) ∧
      (∀ u, s.upper_intgt = some u → s.intgt < u ∧ u < d.maxTime) := by
  unfold invB
  rcases hl : s.lower_intgt with _ | l <;> rcases hu : s.upper_intgt with _ | u <;>
    simp [and_assoc]

/-- C5.  The bracketing state is monotone across iterations: from any state
satisfying the loop's invariant (established at initialization), a
non-failing iteration preserves the invariant, never resets a known
`upper_intgt` back to unknown, and only ever overwrites a known
`lower_intgt` with a value at least as large. -/
theorem claim5_bracket_invariant :
    (∀ d : Spectrometer, invB d initState = true) ∧
    (∀ (d : Spectrometer) (s s' : SearchState), 0 < d.maxTime →
      invB d s = true →
      (loopBody d s = .next s' ∨ loopBody d s = .brk s') →
      invB d s' = true ∧
      (s.upper_intgt.isSome → s'.upper_intgt.isSome) ∧
      (∀ l l', s.lower_intgt = some l → s'.lower_intgt = some l' → l ≤ l')) := by
  constructor
  · intro d
    norm_num [invB, initState]
  · intro d s s' hd hinv hstep
    obtain ⟨h0, hlow, hup⟩ := (invB_iff d s).mp hinv
    rcases hmax : (d.intensities (clampTop d s.intgt)).max? with _ | m
    · exfalso
      rcases hstep with h | h <;> rw [loopBody_empty d s _ rfl hmax] at h <;>
        cases h
    · by_cases hbt : clampTop d s.intgt = d.maxTime
      · -- the break iteration: only the measurement fields change
        have hble := clampTop_eq_max_le d s.intgt hbt
        rcases hstep with h | h
        · rw [loopBody_brk_eq d s _ m rfl hmax hbt] at h; cases h
        · rw [loopBody_brk_eq d s _ m rfl hmax hbt] at h
          cases h
          refine ⟨?_, ?_, ?_⟩
          · rw [invB_iff]
            refine ⟨?_, ?_, ?_⟩
            · show (0 : ℚ) < clampTop d s.intgt
              rw [hbt]; exact hd
            · intro l hl
              have hl2 : s.lower_intgt = some l := hl
              obtain ⟨a1, a2, a3⟩ := hlow l hl2
              refine ⟨a1, ?_, a3⟩
              show l < clampTop d s.intgt
              rw [hbt]; exact a3
            · intro u hu2
              obtain ⟨b1, b2⟩ := hup u (show s.upper_intgt = some u from hu2)
              exfalso; linarith
          · intro hs; exact hs
          · intro l l' e1 e2
            have e2' : s.lower_intgt = some l' := e2
            rw [e1] at e2'; cases e2'; exact le_rfl
      · -- a non-break iteration
        have hts := clampTop_of_ne_max d s.intgt hbt
        have htl : clampTop d s.intgt < d.maxTime :=
          lt_of_le_of_ne (clampTop_le d s.intgt) hbt
        by_cases hc1 : m < lower_bound d ∧ s.upper_intgt = none
        · -- exponential doubling branch
          rcases hstep with h | h
          swap
          · rw [loopBody_b1_eq d s _ m rfl hmax hbt hc1] at h; cases h
          · rw [loopBody_b1_eq d s _ m rfl hmax hbt hc1] at h
            cases h
            refine ⟨?_, ?_, ?_⟩
            · rw [invB_iff]
              refine ⟨?_, ?_, ?_⟩
              · show (0 : ℚ) < clampTop d s.intgt * 2
                linarith
              · intro l hl
                have hl2 : some (clampTop d s.intgt) = some l := hl
                cases hl2
                refine ⟨by linarith, ?_, htl⟩
                show clampTop d s.intgt < clampTop d s.intgt * 2
                linarith
              · intro u hu2
                have hu3 : s.upper_intgt = some u := hu2
                rw [hc1.2] at hu3; cases hu3
            · intro hs; rw [hc1.2] at hs; simp at hs
            · intro l l' e1 e2
              have e2' : some (clampTop d s.intgt) = some l' := e2
              cases e2'
              obtain ⟨a1, a2, a3⟩ := hlow l e1
              linarith
        · by_cases hc2 : m > upper_bound d
          · -- bisect-downward branch
            rcases hl' : s.lower_intgt with _ | l
            · exfalso
              rcases hstep with h | h <;>
                rw [loopBody_b2_none d s _ m rfl hmax hbt hc1 hc2 hl'] at h <;>
                cases h
            · obtain ⟨a1, a2, a3⟩ := hlow l hl'
              rcases hstep with h | h
              swap
              · rw [loopBody_b2_eq d s _ m l rfl hmax hbt hc1 hc2 hl'] at h
                cases h
              · rw [loopBody_b2_eq d s _ m l rfl hmax hbt hc1 hc2 hl'] at h
                cases h
                refine ⟨?_, ?_, ?_⟩
                · rw [invB_iff]
                  refine ⟨?_, ?_, ?_⟩
                  · show (0 : ℚ) <
                      clampTop d s.intgt - (clampTop d s.intgt - l) / 2
                    linarith
                  · intro l₀ e
                    have e' : s.lower_intgt = some l₀ := e
                    rw [hl'] at e'; cases e'
                    refine ⟨a1, ?_, a3⟩
                    show l < clampTop d s.intgt - (clampTop d s.intgt - l) / 2
                    linarith
                  · intro u₀ e
                    have e' : some (clampTop d s.intgt) = some u₀ := e
                    cases e'
                    constructor
                    · show clampTop d s.intgt - (clampTop d s.intgt - l) / 2 <
                        clampTop d s.intgt
                      linarith
                    · exact htl
                · intro _; rfl
                · intro l₀ l' e1 e2
                  cases e1
                  have e2' : s.lower_intgt = some l' := e2
                  rw [hl'] at e2'; cases e2'
                  exact le_rfl
          · by_cases hc3 : m < lower_bound d
            · -- bisect-upward branch: upper_intgt must be known here
              rcases hu' : s.upper_intgt with _ | u
              · exact absurd ⟨hc3, hu'⟩ hc1
              · obtain ⟨b1, b2⟩ := hup u hu'
                rcases hstep with h | h
                swap
                · rw [loopBody_b3_eq d s _ m u rfl hmax hbt hc3 hc2 hu'] at h
                  cases h
                · rw [loopBody_b3_eq d s _ m u rfl hmax hbt hc3 hc2 hu'] at h
                  cases h
                  refine ⟨?_, ?_, ?_⟩
                  · rw [invB_iff]
                    refine ⟨?_, ?_, ?_⟩
                    · show (0 : ℚ) <
                        clampTop d s.intgt + (u - clampTop d s.intgt) / 2
                      linarith
                    · intro l₀ e
                      have e' : some (clampTop d s.intgt) = some l₀ := e
                      cases e'
                      refine ⟨by linarith, ?_, htl⟩
                      show clampTop d s.intgt <
                        clampTop d s.intgt + (u - clampTop d s.intgt) / 2
                      linarith
                    · intro u₀ e
                      have e' : s.upper_intgt = some u₀ := e
                      rw [hu'] at e'; cases e'
                      constructor
                      · show clampTop d s.intgt +
                          (u - clampTop d s.intgt) / 2 < u
                        linarith
                      · exact b2
                  · intro hs
                    show s.upper_intgt.isSome = true
                    rw [hu']; rfl
                  · intro l₀ l' e1 e2
                    have e2' : some (clampTop d s.intgt) = some l' := e2
                    cases e2'
                    obtain ⟨a1, a2, a3⟩ := hlow l₀ e1
                    linarith
            · -- peak in band: no state update beyond the measurement fields
              rcases hstep with h | h
              swap
              · rw [loopBody_inband d s _ m rfl hmax hbt hc3 hc2] at h; cases h
              · rw [loopBody_inband d s _ m rfl hmax hbt hc3 hc2] at h
                cases h
                refine ⟨?_, ?_, ?_⟩
                · rw [invB_iff]
                  refine ⟨?_, ?_, ?_⟩
                  · show (0 : ℚ) < clampTop d s.intgt
                    linarith
                  · intro l₀ e
                    obtain ⟨a1, a2, a3⟩ :=
                      hlow l₀ (show s.lower_intgt = some l₀ from e)
                    refine ⟨a1, ?_, a3⟩
                    show l₀ < clampTop d s.intgt
                    linarith
                  · intro u₀ e
                    obtain ⟨b1, b2⟩ :=
                      hup u₀ (show s.upper_intgt = some u₀ from e)
                    refine ⟨?_, b2⟩
                    show clampTop d s.intgt < u₀
                    linarith
                · intro hs; exact hs
                · intro l₀ l' e1 e2
                  have e2' : s.lower_intgt = some l' := e2
                  rw [e1] at e2'; cases e2'; exact le_rfl

/-- In the exponential phase (no upper bracket known yet and every peak below
the lower bound), the loop reaches the maximum exposure: once the doubled
exposure passes the maximum it is clamped there and the break exits. -/
theorem doubling_reaches_max (d : Spectrometer)
    (hpeak : ∀ t : ℚ, 0 ≤ t → t ≤ d.maxTime →
      ∃ m, (d.intensities t).max? = some m ∧ m < lower_bound d)
    (hmax : 0 < d.maxTime) :
    ∀ (k : Nat) (s : SearchState), s.upper_intgt = none → 0 < s.intgt →
      d.maxTime ≤ s.intgt * 2 ^ k → loopCond d s = true →
      ∃ s', adaptiveLoop d (k + 1) s = .ok s' ∧ s'.intgt = d.maxTime ∧
        s'.oo_counts = some (d.intensities d.maxTime) := by
  intro k
  induction k with
  | zero =>
    intro s hu h0 hk hcond
    have hge : s.intgt ≥ d.maxTime := by
      have : s.intgt * 2 ^ 0 = s.intgt := by ring
      rw [this] at hk; exact hk
    have hct : clampTop d s.intgt = d.maxTime := by
      unfold clampTop; rw [if_pos hge]
    obtain ⟨m, hm, _⟩ := hpeak d.maxTime (le_of_lt hmax) le_rfl
    have hm' : (d.intensities (clampTop d s.intgt)).max? = some m := by
      rw [hct]; exact hm
    refine ⟨measured d s (clampTop d s.intgt) m, ?_, hct, ?_⟩
    · exact adaptiveLoop_step_brk d s _ 0 hcond
        (loopBody_brk_eq d s _ m rfl hm' hct)
    · show some (d.intensities (clampTop d s.intgt)) =
        some (d.intensities d.maxTime)
      rw [hct]
  | succ j ih =>
    intro s hu h0 hk hcond
    by_cases hge : s.intgt ≥ d.maxTime
    · have hct : clampTop d s.intgt = d.maxTime := by
        unfold clampTop; rw [if_pos hge]
      obtain ⟨m, hm, _⟩ := hpeak d.maxTime (le_of_lt hmax) le_rfl
      have hm' : (d.intensities (clampTop d s.intgt)).max? = some m := by
        rw [hct]; exact hm
      refine ⟨measured d s (clampTop d s.intgt) m, ?_, hct, ?_⟩
      · exact adaptiveLoop_step_brk d s _ (j + 1) hcond
          (loopBody_brk_eq d s _ m rfl hm' hct)
      · show some (d.intensities (clampTop d s.intgt)) =
          some (d.intensities d.maxTime)
        rw [hct]
    · have hct : clampTop d s.intgt = s.intgt := by
        unfold clampTop; rw [if_neg hge]
      have hlt : s.intgt < d.maxTime := lt_of_not_ge hge
      obtain ⟨m, hm, hmlt⟩ := hpeak s.intgt (le_of_lt h0) (le_of_lt hlt)
      have hm' : (d.intensities (clampTop d s.intgt)).max? = some m := by
        rw [hct]; exact hm
      have hbt : clampTop d s.intgt ≠ d.maxTime := by
        rw [hct]; exact ne_of_lt hlt
      obtain ⟨s', h1, h2, h3⟩ := ih
        { measured d s (clampTop d s.intgt) m with
          lower_intgt := some (clampTop d s.intgt),
          intgt := clampTop d s.intgt * 2 }
        (show s.upper_intgt = none from hu)
        (show 0 < clampTop d s.intgt * 2 by rw [hct]; linarith)
        (by
          show d.maxTime ≤ clampTop d s.intgt * 2 * 2 ^ j
          rw [hct]
          calc d.maxTime ≤ s.intgt * 2 ^ (j + 1) := hk
            _ = s.intgt * 2 * 2 ^ j := by ring)
        (by
          show (decide (m < lower_bound d) || decide (m > upper_bound d)) = true
          rw [decide_eq_true hmlt, Bool.true_or])
      refine ⟨s', ?_, h2, h3⟩
      rw [adaptiveLoop_step_next d s _ (j + 1) hcond
        (loopBody_b1_eq d s _ m rfl hm' hbt ⟨hmlt, hu⟩)]
      exact h1

/-- C6.  For a device whose readout peak stays below the lower target bound
at every exposure up to and including the maximum (and whose capability
values are positive), the controller terminates normally — not with an error
— with the final integration time exactly the device maximum, returning the
readout taken at that maximum exposure. -/
theorem claim6_saturation (d : Spectrometer)
    (hmax : 0 < d.maxTime) (hmi : 0 < d.max_intensity)
    (hpeak : ∀ t : ℚ, 0 ≤ t → t ≤ d.maxTime →
      ∃ m, (d.intensities t).max? = some m ∧ m < lower_bound d) :
    ∃ (fuel : Nat) (s : SearchState),
      adaptiveLoop d fuel initState = .ok s ∧ s.intgt = d.maxTime ∧
      s.oo_counts = some (d.intensities d.maxTime) := by
  obtain ⟨k, hk⟩ := pow_unbounded_of_one_lt d.maxTime (by norm_num : (1 : ℚ) < 2)
  have hk1000 : d.maxTime ≤ initState.intgt * 2 ^ k := by
    show d.maxTime ≤ 1000 * 2 ^ k
    have h2 : (0 : ℚ) < 2 ^ k := pow_pos (by norm_num) k
    nlinarith
  have hlb : (0 : ℚ) < lower_bound d := by
    unfold lower_bound; linarith
  have hcond : loopCond d initState = true := by
    show (decide (initState.max_reported < lower_bound d) ||
      decide (initState.max_reported > upper_bound d)) = true
    rw [decide_eq_true (show initState.max_reported < lower_bound d from hlb),
      Bool.true_or]
  obtain ⟨s, h1, h2, h3⟩ := doubling_reaches_max d hpeak hmax k initState rfl
    (by norm_num [initState]) hk1000 hcond
  exact ⟨k + 1, s, h1, h2, h3⟩

theorem dev6_maxpos : (0 : ℚ) < dev6.maxTime := by norm_num [dev6]

theorem dev6_mipos : (0 : ℚ) < dev6.max_intensity := by norm_num [dev6]

theorem dev6_hpeak : ∀ t : ℚ, 0 ≤ t → t ≤ dev6.maxTime →
    ∃ m, (dev6.intensities t).max? = some m ∧ m < lower_bound dev6 :=
  fun _ _ _ => ⟨10, rfl, by norm_num [lower_bound, dev6]⟩

/-- C6 witness: the dim device `dev6` (constant peak 10, maximum exposure
3000) terminates normally at exposure 3000 with the saturated readout. -/
theorem claim6_witness :
    ∃ (fuel : Nat) (s : SearchState),
      adaptiveLoop dev6 fuel initState = .ok s ∧ s.intgt = dev6.maxTime ∧
      s.oo_counts = some (dev6.intensities dev6.maxTime) :=
  claim6_saturation dev6 dev6_maxpos dev6_mipos dev6_hpeak

/-! Dictionary lookup lemmas for the info-dict merge. -/

theorem lookup_append_of_some {β : Type} (a b : List (String × β)) (k : String)
    (v : β) (h : b.lookup k = some v) : (b ++ a).lookup k = some v := by
  induction b with
  | nil => cases h
  | cons p t ih =>
    rcases p with ⟨k', v'⟩
    by_cases hk : (k == k') = true
    · simp only [List.lookup, hk] at h ⊢; exact h
    · rw [Bool.not_eq_true] at hk
      simp only [List.lookup, hk] at h ⊢; exact ih h

theorem lookup_append_of_none {β : Type} (a b : List (String × β)) (k : String)
    (h : b.lookup k = none) : (b ++ a).lookup k = a.lookup k := by
  induction b with
  | nil => rfl
  | cons p t ih =>
    rcases p with ⟨k', v'⟩
    by_cases hk : (k == k') = true
    · simp only [List.lookup, hk] at h; cases h
    · rw [Bool.not_eq_true] at hk
      simp only [List.lookup, hk] at h ⊢; exact ih h

/-- C7.  On a terminating run, `adaptive_measurement` returns the final
readout together with the info dictionary whose base fields are `board_temp`
(index 0 of the last temperature read), `micro_temp` (index 2),
`integration_time` (the final exposure) and `model` (the device identity),
merged with the caller's context tags; on a key collision the caller's tag
wins the lookup. -/
theorem claim7_info_dict (d : Spectrometer) (setting : List (String × Val))
    (fuel : Nat) (s : SearchState) (temps counts : List ℚ) (bt mt : ℚ)
    (hrun : adaptiveLoop d fuel initState = .ok s)
    (htemps : s.temps = some temps) (hcounts : s.oo_counts = some counts)
    (hbt : temps.get? 0 = some bt) (hmt : temps.get? 2 = some mt) :
    adaptive_measurement d setting fuel =
      .ok counts (dictMerge (mkInfo bt mt s.intgt d.model) setting) ∧
    (∀ k v, setting.lookup k = some v →
      (dictMerge (mkInfo bt mt s.intgt d.model) setting).lookup k = some v) ∧
    (∀ k, setting.lookup k = none →
      (dictMerge (mkInfo bt mt s.intgt d.model) setting).lookup k =
        (mkInfo bt mt s.intgt d.model).lookup k) ∧
    (mkInfo bt mt s.intgt d.model).lookup "board_temp" = some (.num bt) ∧
    (mkInfo bt mt s.intgt d.model).lookup "micro_temp" = some (.num mt) ∧
    (mkInfo bt mt s.intgt d.model).lookup "integration_time" =
      some (.num s.intgt) ∧
    (mkInfo bt mt s.intgt d.model).lookup "model" = some (.str d.model) := by
  refine ⟨?_, ?_, ?_, rfl, rfl, rfl, rfl⟩
  · simp only [adaptive_measurement, hrun, htemps, hcounts, hbt, hmt]
  · intro k v h
    exact lookup_append_of_some (mkInfo bt mt s.intgt d.model) setting k v h
  · intro k h
    exact lookup_append_of_none (mkInfo bt mt s.intgt d.model) setting k h

theorem dev1_maxpos : (0 : ℚ) < dev1.maxTime := by norm_num [dev1]

theorem dev1_inv2 : invB dev1 dev1_s2 = true := by
  norm_num [invB, dev1_s2, dev1]

/-- C5 witness: stepping the worked scenario from its third state (lower
bracket 2000 known) preserves the invariant and the lower bracket does not
decrease. -/
theorem claim5_witness :
    invB dev1 dev1_s3 = true ∧ (2000 : ℚ) ≤ 2000 := by
  have h := claim5_bracket_invariant.2 dev1 dev1_s2 dev1_s3 dev1_maxpos
    dev1_inv2 (Or.inl dev1_body2)
  exact ⟨h.1, h.2.2 2000 2000 rfl rfl⟩

theorem dev7_run : adaptiveLoop dev7 10 initState = .ok dev7_s1 := by
  rw [show (10 : Nat) = 9 + 1 from rfl,
    adaptiveLoop_step_next dev7 initState dev7_s1 9
      (by norm_num [loopCond, initState, lower_bound, upper_bound, dev7])
      (by norm_num [loopBody, measured, clampTop, dev7, initState, dev7_s1,
        lower_bound, upper_bound, List.max?]),
    show (9 : Nat) = 8 + 1 from rfl,
    adaptiveLoop_stop dev7 dev7_s1 8
      (by norm_num [loopCond, dev7_s1, lower_bound, upper_bound, dev7])]

/-- C7 witness: on `dev7` with context tags that include a colliding `model`
key, the returned dictionary holds the caller's `model` value, and the base
`board_temp` field (temperature index 0) survives for non-colliding keys. -/
theorem claim7_witness :
    adaptive_measurement dev7 [("led", .num 5), ("model", .str "override")] 10 =
      .ok [85] (dictMerge (mkInfo 21 33 1000 "JAZ")
        [("led", .num 5), ("model", .str "override")]) ∧
    (dictMerge (mkInfo 21 33 1000 "JAZ")
      [("led", .num 5), ("model", .str "override")]).lookup "model" =
      some (.str "override") ∧
    (dictMerge (mkInfo 21 33 1000 "JAZ")
      [("led", .num 5), ("model", .str "override")]).lookup "board_temp" =
      some (.num 21) := by
  have h := claim7_info_dict dev7 [("led", .num 5), ("model", .str "override")]
    10 dev7_s1 [21, 5, 33] [85] 21 33 dev7_run rfl rfl rfl rfl
  exact ⟨h.1, h.2.1 "model" (.str "override") rfl,
    (h.2.2.1 "board_temp" rfl).trans h.2.2.2.1⟩

/-- C8.  The undefined-value branch is reachable: on `dev8`, whose very first
readout at the initial exposure of 1000 micros peaks at 15000, above the
upper target bound 14745.6, the bisect-downward branch executes while
`lower_intgt` is still `None`, and the run fails at the subtraction
`intgt -= (upper_intgt - lower_intgt) / 2` (modelled as the `unsetLower`
error). -/
theorem claim8_unset_lower_reachable :
    adaptiveLoop dev8 10 initState = .fail .unsetLower ∧
    dev8.intensities 1000 = [15000] ∧ upper_bound dev8 < 15000 := by
  refine ⟨dev8_run, rfl, by norm_num [upper_bound, dev8]⟩




/-! ### Cell-level lemmas for the frame transformations -/

theorem lookup_map_snd {β γ : Type} (g : β → γ)
    (l : List (String × β)) (k : String) :
    (l.map fun c => (c.1, g c.2)).lookup k = (l.lookup k).map g := by
  induction l with
  | nil => rfl
  | cons p t ih =>
    rcases p with ⟨k', v⟩
    by_cases hk : (k == k') = true
    · simp only [List.map, List.lookup, hk]; rfl
    · rw [Bool.not_eq_true] at hk
      simp only [List.map, List.lookup, hk]
      exact ih

theorem get_maskCellsAux (p : Nat → Bool) :
    ∀ (vs : List (Option ℚ)) (k i : Nat),
      (maskCellsAux p k vs).get? i =
        (vs.get? i).map fun v => if p (k + i) then none else v := by
  intro vs
  induction vs with
  | nil => intro k i; rfl
  | cons v t ih =>
    intro k i
    cases i with
    | zero => rfl
    | succ j =>
      show (maskCellsAux p (k + 1) t).get? j =
        (t.get? j).map fun v => if p (k + (j + 1)) then none else v
      rw [ih (k + 1) j]
      have e : k + 1 + j = k + (j + 1) := by omega
      simp only [e]

theorem cell_nullRows (df : DataFrame) (p : Nat → Bool) (f : String) (i : Nat) :
    colCell (nullRows df p) f i =
      (colCell df f i).map fun v => if p i then none else v := by
  unfold colCell nullRows getCol
  show ((df.cols.map fun c => (c.1, maskCellsAux p 0 c.2)).lookup f).bind _ = _
  rw [lookup_map_snd]
  rcases df.cols.lookup f with _ | vs
  · rfl
  · show (maskCellsAux p 0 vs).get? i = _
    rw [get_maskCellsAux p vs 0 i]
    have e : 0 + i = i := by omega
    simp only [e]
    rfl

theorem zero_after (x : Option (Option ℚ)) (a : Bool) :
    ((x.map fun v => if a then none else v) == some (some 0)) =
    (!a && (x == some (some 0))) := by
  cases x <;> cases a <;> simp [Option.map]

theorem null_compose (x : Option (Option ℚ)) (a b : Bool) :
    ((x.map fun v => if a then none else v).map
      fun v => if (!a && b) then none else v) =
    x.map fun v => if (a || b) then none else v := by
  cases x <;> cases a <;> cases b <;> rfl

theorem rowHasZero_nullRows (df : DataFrame) (p : Nat → Bool)
    (cols : List String) (i : Nat) :
    rowHasZero (nullRows df p) cols i = (!p i && rowHasZero df cols i) := by
  unfold rowHasZero
  induction cols with
  | nil => simp
  | cons c cs ih =>
    rw [List.any_cons, List.any_cons, ih, cell_nullRows, zero_after,
      ← Bool.and_or_distrib_left]

theorem getCol_nullRows (df : DataFrame) (p : Nat → Bool) (f : String) :
    getCol (nullRows df p) f = (getCol df f).map (maskCellsAux p 0) := by
  unfold getCol nullRows
  exact lookup_map_snd (maskCellsAux p 0) df.cols f

/-- The fold of `mask_zeros` succeeds on present columns and nulls exactly
the rows holding a 0 in one of them. -/
theorem maskZeroFold_cells :
    ∀ (cols : List String) (df : DataFrame),
      (∀ f ∈ cols, (getCol df f).isSome = true) →
      ∃ r, maskZeroFold df cols = some r ∧
        ∀ f i, colCell r f i =
          (colCell df f i).map
            fun v => if rowHasZero df cols i then none else v := by
  intro cols
  induction cols with
  | nil =>
    intro df _
    refine ⟨df, rfl, ?_⟩
    intro f i
    show colCell df f i =
      (colCell df f i).map fun v => if rowHasZero df ([] : List String) i then none else v
    rcases colCell df f i with _ | v <;> simp [rowHasZero]
  | cons c cs ih =>
    intro df hpres
    have hc := hpres c (List.mem_cons_self c cs)
    rcases hvs : getCol df c with _ | vs
    · rw [hvs] at hc; cases hc
    · have hpres' : ∀ f ∈ cs,
          (getCol (nullRows df fun i => vs.get? i == some (some 0)) f).isSome
            = true := by
        intro f hf
        have h1 := hpres f (List.mem_cons_of_mem c hf)
        rw [getCol_nullRows]
        rcases h2 : getCol df f with _ | w
        · rw [h2] at h1; cases h1
        · rfl
      obtain ⟨r, hr, hcells⟩ := ih
        (nullRows df fun i => vs.get? i == some (some 0)) hpres'
      refine ⟨r, ?_, ?_⟩
      · show maskZeroFold df (c :: cs) = some r
        unfold maskZeroFold maskZeroStep
        rw [hvs]
        exact hr
      · intro f i
        rw [hcells f i, cell_nullRows, rowHasZero_nullRows, null_compose]
        have hcc : colCell df c i = vs.get? i := by
          unfold colCell; rw [hvs]; rfl
        have hrz : rowHasZero df (c :: cs) i =
            ((vs.get? i == some (some 0)) || rowHasZero df cs i) := by
          unfold rowHasZero
          rw [List.any_cons, hcc]
        rw [hrz]

/-- C10.  (a) `mask_zeros` nulls every column of exactly the rows holding a 0
in one of the listed columns, leaving all other rows' cells unchanged.
(b) `mask_pupil_first_derivative` applies the same whole-row nulling to the
rows whose masked column equals 0 after the derivative masking: in the
result, every surviving cell of such a row is NaN. -/
theorem claim10_zero_row_nulling :
    (∀ (samples : DataFrame) (mask_cols : List String),
      (∀ f ∈ mask_cols, (getCol samples f).isSome = true) →
      ∃ r, mask_zeros samples mask_cols = (some r, samples) ∧
        ∀ f i, colCell r f i =
          (colCell samples f i).map
            fun v => if rowHasZero samples mask_cols i then none else v) ∧
    (∀ (std : List (Option ℚ) → Option ℚ) (samples : DataFrame)
        (threshold : ℚ) (c : String) (orig : List (Option ℚ)) (r : DataFrame),
      getCol samples c = some orig →
      (mask_pupil_first_derivative std samples threshold [c]).1 = some r →
      ∀ i, (maskedColumn std orig orig threshold).get? i = some (some 0) →
        ∀ g w, colCell r g i = some w → w = none) := by
  constructor
  · intro samples mask_cols hpres
    obtain ⟨r, hr, hcells⟩ := maskZeroFold_cells mask_cols samples hpres
    exact ⟨r, by unfold mask_zeros; rw [hr], hcells⟩
  · intro std samples threshold c orig r horig hr i hz g w hcell
    have hstep : derivStep std samples threshold samples c =
        some (nullRows (setCol samples c (maskedColumn std orig orig threshold))
          fun i => (maskedColumn std orig orig threshold).get? i ==
            some (some 0)) := by
      unfold derivStep
      rw [horig]
    have hr' : derivFold std samples threshold samples [c] = some r := hr
    unfold derivFold at hr'
    rw [hstep] at hr'
    have hr2 : some (nullRows
        (setCol samples c (maskedColumn std orig orig threshold))
        fun i => (maskedColumn std orig orig threshold).get? i ==
          some (some 0)) = some r := hr'
    cases hr2
    rw [cell_nullRows] at hcell
    have hp : ((maskedColumn std orig orig threshold).get? i ==
        some (some 0)) = true := by
      rw [hz]; simp
    rw [hp] at hcell
    rcases hbase : colCell
        (setCol samples c (maskedColumn std orig orig threshold)) g i
      with _ | v
    · rw [hbase] at hcell; cases hcell
    · rw [hbase] at hcell
      have h2 : some (none : Option ℚ) = some w := hcell
      cases h2; rfl

theorem df11_run :
    (mask_pupil_first_derivative (fun _ => none) df11 1 ["diameter"]).1 =
      some ⟨[0, 1, 2], [("diameter", [none, none, some 7])]⟩ := by
  norm_num [mask_pupil_first_derivative, derivFold, derivStep, maskedColumn,
    maskCellsAux, derivMaskCond, diffList, diffAux, meanList, someVals,
    List.filterMap, nullRows, setCol, setColAux, getCol, List.lookup, df11]

/-- C10 witness: on `df10` (a 0 at row 1 of `diameter`), `mask_zeros` fully
nulls row 1 and leaves the other rows untouched; and on `df11`, whose
`diameter` column keeps its leading 0 after derivative masking (the std of
the short series is NaN, so nothing is masked), the surviving cell of row 0
in the result of `mask_pupil_first_derivative` is NaN. -/
theorem claim10_witness :
    (∃ r, mask_zeros df10 ["diameter"] = (some r, df10) ∧
      ∀ f i, colCell r f i =
        (colCell df10 f i).map
          fun v => if rowHasZero df10 ["diameter"] i then none else v) ∧
    (none : Option ℚ) = none := by
  constructor
  · exact claim10_zero_row_nulling.1 df10 ["diameter"]
      (by intro f hf; simp at hf; subst hf; rfl)
  · exact claim10_zero_row_nulling.2 (fun _ => none) df11 1 "diameter"
      [some 0, some 0, some 7]
      ⟨[0, 1, 2], [("diameter", [none, none, some 7])]⟩
      rfl df11_run 0 rfl "diameter" none rfl

/-- C9, counterexample.  The claim says every cleaning transformation leaves
the caller's input frame unchanged.  `even_samples` takes no copy: called on
`df9` (index `[5, 7]`) with a linear interpolant and `sample_rate` 1, the
caller's frame after the call has index `[0, 1]` and the resampled column —
it has been mutated in place and no longer equals the input. -/
theorem claim9_counterexample :
    even_samples linearInterp df9 1 ["diameter"] =
      (some ⟨[0, 1], [("diameter", [some 1, some 2])]⟩,
       ⟨[0, 1], [("diameter", [some 1, some 2])]⟩) ∧
    (⟨[0, 1], [("diameter", [some 1, some 2])]⟩ : DataFrame) ≠ df9 := by
  constructor
  · norm_num [even_samples, evenFold, mapO, linearInterp, df9, getCol, setCol,
      setColAux, List.lookup, List.range_succ, List.range_zero]
  · norm_num [df9]

/-- C9, amended.  All the cleaning transformations except `even_samples`
take a deep copy first and leave the caller's frame unchanged (the two
filters under their default `inplace=False`); `even_samples` alone mutates
the caller's frame (see the counterexample). -/
theorem claim9_amended :
    (∀ (std : List (Option ℚ) → Option ℚ) (samples : DataFrame)
      (threshold : ℚ) (mask_cols : List String),
      (mask_pupil_first_derivative std samples threshold mask_cols).2 =
        samples) ∧
    (∀ (samples : DataFrame) (threshold : ℚ) (mask_cols : List String),
      (mask_pupil_confidence samples threshold mask_cols).2 = samples) ∧
    (∀ (samples : DataFrame) (blinks : List (ℚ × ℚ))
      (mask_cols : List String),
      (mask_blinks samples blinks mask_cols).2 = samples) ∧
    (∀ (samples : DataFrame) (mask_cols : List String),
      (mask_zeros samples mask_cols).2 = samples) ∧
    (∀ (pdInterp : List (Option ℚ) → List (Option ℚ)) (samples : DataFrame)
      (interp_cols : List String),
      (interpolate_pupil pdInterp samples interp_cols).2 = samples) ∧
    (∀ (ff : Nat → ℚ → List (Option ℚ) → List (Option ℚ))
      (samples : DataFrame) (fields : List String) (n : Nat) (q : ℚ),
      (butterworth_series ff samples fields n q false).2 = samples) ∧
    (∀ (sg : Nat → Nat → List (Option ℚ) → List (Option ℚ))
      (samples : DataFrame) (fields : List String) (w n : Nat),
      (savgol_series sg samples fields w n false).2 = samples) :=
  ⟨fun _ _ _ _ => rfl, fun _ _ _ => rfl, fun _ _ _ => rfl, fun _ _ => rfl,
   fun _ _ _ => rfl, fun _ _ _ _ _ => rfl, fun _ _ _ _ _ => rfl⟩
